import Mathlib

/-!
Verification of the DreamCraft backend (src/main.py): a shallow embedding of
the deterministic SVG art generator and the catalog service read/write paths,
with theorems settling the specification claims.

Python strings are modelled as Lean `String` (sequences of Unicode scalar
values, matching Python `str`); `str.encode("utf-8")` is modelled by an
explicit UTF-8 encoder producing byte lists (`List Nat`, each < 256).
`hashlib.sha256` is embedded as the full FIPS 180-4 SHA-256 algorithm on byte
lists, and `base64.b64encode` as the standard RFC 4648 alphabet encoding.
Python `float` values are modelled as exact rationals (`Rat`); every numeric
value appearing in the claims (small decimal literals) is exactly
representable, so no rounding behaviour is lost for the properties proved.
-/

set_option maxRecDepth 10000

namespace DreamCraft

/-! ### SHA-256 (embedding of `hashlib.sha256(...).hexdigest()`) -/

/-- Truncate to a 32-bit word. -/
def w32 (x : Nat) : Nat := x % 4294967296

/-- Rotate a 32-bit word right by `n`. -/
def rotr (n x : Nat) : Nat := w32 ((x >>> n) ||| (x <<< (32 - n)))

/-- Logical shift right. -/
def shr (n x : Nat) : Nat := x >>> n

def sigB0 (x : Nat) : Nat := (rotr 2 x) ^^^ (rotr 13 x) ^^^ (rotr 22 x)

def sigB1 (x : Nat) : Nat := (rotr 6 x) ^^^ (rotr 11 x) ^^^ (rotr 25 x)

def sigS0 (x : Nat) : Nat := (rotr 7 x) ^^^ (rotr 18 x) ^^^ (shr 3 x)

def sigS1 (x : Nat) : Nat := (rotr 17 x) ^^^ (rotr 19 x) ^^^ (shr 10 x)

def chf (x y z : Nat) : Nat := (x &&& y) ^^^ ((x ^^^ 4294967295) &&& z)

def majf (x y z : Nat) : Nat := (x &&& y) ^^^ (x &&& z) ^^^ (y &&& z)

/-- The 64 SHA-256 round constants (FIPS 180-4, written in decimal). -/
def sha256K : List Nat :=
  [1116352408, 1899447441, 3049323471, 3921009573, 961987163,
   1508970993, 2453635748, 2870763221, 3624381080, 310598401,
   607225278, 1426881987, 1925078388, 2162078206, 2614888103,
   3248222580, 3835390401, 4022224774, 264347078, 604807628,
   770255983, 1249150122, 1555081692, 1996064986, 2554220882,
   2821834349, 2952996808, 3210313671, 3336571891, 3584528711,
   113926993, 338241895, 666307205, 773529912, 1294757372,
   1396182291, 1695183700, 1986661051, 2177026350, 2456956037,
   2730485921, 2820302411, 3259730800, 3345764771, 3516065817,
   3600352804, 4094571909, 275423344, 430227734, 506948616,
   659060556, 883997877, 958139571, 1322822218, 1537002063,
   1747873779, 1955562222, 2024104815, 2227730452, 2361852424,
   2428436474, 2756734187, 3204031479, 3329325298]

/-- The SHA-256 initial hash value (FIPS 180-4, written in decimal). -/
def sha256H0 : List Nat :=
  [1779033703, 3144134277, 1013904242, 2773480762,
   1359893119, 2600822924, 528734635, 1541459225]

/-- FIPS 180-4 padding: append `0x80`, zero bytes, and the 8-byte big-endian
bit length, reaching a multiple of 64 bytes. -/
def padMessage (msg : List Nat) : List Nat :=
  let L := msg.length
  let zeros := (120 - ((L + 1) % 64)) % 64
  msg ++ [128] ++ List.replicate zeros 0 ++
    (List.range 8).map (fun i => (((8 * L) >>> (8 * (7 - i))) % 256))

/-- Split a byte list into 64-byte blocks (structural recursion on a fuel
bound that always suffices, so the kernel can evaluate it). -/
def toBlocksFuel : Nat → List Nat → List (List Nat)
  | 0, _ => []
  | _ + 1, [] => []
  | k + 1, l => l.take 64 :: toBlocksFuel k (l.drop 64)

/-- Split a byte list into 64-byte blocks. -/
def toBlocks (l : List Nat) : List (List Nat) :=
  toBlocksFuel (l.length / 64 + 1) l

/-- Big-endian 4-byte groups to 32-bit words. -/
def bytesToWords : List Nat → List Nat
  | b0 :: b1 :: b2 :: b3 :: rest =>
      (b0 * 16777216 + b1 * 65536 + b2 * 256 + b3) :: bytesToWords rest
  | _ => []

def nthW (l : List Nat) (i : Nat) : Nat := l.getD i 0

/-- Extend the 16-word message schedule by `k` further words. -/
def extendW : List Nat → Nat → List Nat
  | ws, 0 => ws
  | ws, k + 1 =>
      let i := ws.length
      extendW (ws ++ [w32 (sigS1 (nthW ws (i - 2)) + nthW ws (i - 7) +
        sigS0 (nthW ws (i - 15)) + nthW ws (i - 16))]) k

/-- One SHA-256 compression round on the 8-word state. -/
def sha256round (st : List Nat) (kw : Nat × Nat) : List Nat :=
  match st with
  | [a, b, c, d, e, f, g, h] =>
      let t1 := w32 (h + sigB1 e + chf e f g + kw.1 + kw.2)
      let t2 := w32 (sigB0 a + majf a b c)
      [w32 (t1 + t2), a, b, c, w32 (d + t1), e, f, g]
  | other => other

/-- Compress one 64-byte block into the running hash state. -/
def compressBlock (H : List Nat) (block : List Nat) : List Nat :=
  let W := extendW (bytesToWords block) 48
  let st := (sha256K.zip W).foldl sha256round H
  List.zipWith (fun x y => w32 (x + y)) H st

/-- SHA-256 of a byte list, as the 8-word final state. -/
def sha256words (msg : List Nat) : List Nat :=
  (toBlocks (padMessage msg)).foldl compressBlock sha256H0

/-- Lowercase hexadecimal digit. -/
def hexDigit (n : Nat) : Char :=
  if n < 10 then Char.ofNat (48 + n) else Char.ofNat (87 + n)

/-- A 32-bit word as 8 lowercase hex characters. -/
def wordToHex (w : Nat) : List Char :=
  (List.range 8).map (fun i => hexDigit ((w >>> (4 * (7 - i))) % 16))

/-- `hashlib.sha256(msg).hexdigest()`: lowercase hex digest of a byte list. -/
def sha256Hex (msg : List Nat) : String :=
  ⟨((sha256words msg).map wordToHex).flatten⟩

/-! ### UTF-8 encoding (embedding of `str.encode("utf-8")`) -/

/-- UTF-8 bytes of a single Unicode scalar value. -/
def utf8Char (c : Char) : List Nat :=
  let n := c.toNat
  if n < 128 then [n]
  else if n < 2048 then [192 + n / 64, 128 + n % 64]
  else if n < 65536 then [224 + n / 4096, 128 + (n / 64) % 64, 128 + n % 64]
  else [240 + n / 262144, 128 + (n / 4096) % 64, 128 + (n / 64) % 64, 128 + n % 64]

/-- UTF-8 bytes of a string. -/
def utf8Bytes (s : String) : List Nat :=
  (s.data.map utf8Char).flatten

/-! ### Base64 (embedding of `base64.b64encode(...).decode("utf-8")`) -/

/-- The RFC 4648 base64 alphabet. -/
def b64Alphabet : List Char :=
  "ABCDEFGHIJKLMNOPQRSTUVWXYZabcdefghijklmnopqrstuvwxyz0123456789+/".data

/-- Character for a 6-bit group. -/
def b64Char (n : Nat) : Char := b64Alphabet.getD n (Char.ofNat 65)

/-- Standard base64 encoding of a byte list, with `=` padding. -/
def b64encode : List Nat → List Char
  | b1 :: b2 :: b3 :: rest =>
      let n := b1 * 65536 + b2 * 256 + b3
      b64Char (n / 262144 % 64) :: b64Char (n / 4096 % 64) ::
        b64Char (n / 64 % 64) :: b64Char (n % 64) :: b64encode rest
  | [b1, b2] =>
      let n := b1 * 65536 + b2 * 256
      [b64Char (n / 262144 % 64), b64Char (n / 4096 % 64), b64Char (n / 64 % 64), '=']
  | [b1] =>
      let n := b1 * 65536
      [b64Char (n / 262144 % 64), b64Char (n / 4096 % 64), '=', '=']
  | [] => []

/-- Index of a character in the base64 alphabet. -/
def b64Val (c : Char) : Option Nat :=
  b64Alphabet.findIdx? (fun d => d = c)

/-- Base64 decoding, a strict inverse of `b64encode`; `none` on malformed
input. -/
def b64decode : List Char → Option (List Nat)
  | [] => some []
  | c1 :: c2 :: c3 :: c4 :: rest =>
      if c3 = '=' then
        if c4 = '=' ∧ rest = [] then
          match b64Val c1, b64Val c2 with
          | some v1, some v2 =>
              let n := v1 * 262144 + v2 * 4096
              if n % 65536 = 0 then some [n / 65536] else none
          | _, _ => none
        else none
      else if c4 = '=' then
        if rest = [] then
          match b64Val c1, b64Val c2, b64Val c3 with
          | some v1, some v2, some v3 =>
              let n := v1 * 262144 + v2 * 4096 + v3 * 64
              if n % 256 = 0 then some [n / 65536, n / 256 % 256] else none
          | _, _, _ => none
        else none
      else
        match b64Val c1, b64Val c2, b64Val c3, b64Val c4, b64decode rest with
        | some v1, some v2, some v3, some v4, some bs =>
            let n := v1 * 262144 + v2 * 4096 + v3 * 64 + v4
            some (n / 65536 :: n / 256 % 256 :: n % 256 :: bs)
        | _, _, _, _, _ => none
  | _ => none

/-! ### The art generator (embedding of `_svg_placeholder` and `generate_art`) -/

/-- Python string slicing `s[a:b]` (by code points, as Python does). -/
def strSlice (s : String) (a b : Nat) : String :=
  ⟨(s.data.drop a).take (b - a)⟩

/-- Python `s[:n]`. -/
def pyTake (n : Nat) (s : String) : String := ⟨s.data.take n⟩

/-- Decimal rendering of a natural number (Python f-string of an int). -/
def natDigitsAux : Nat → Nat → List Char → List Char
  | 0, _, acc => acc
  | fuel + 1, n, acc =>
      if n < 10 then hexDigit n :: acc
      else natDigitsAux fuel (n / 10) (hexDigit (n % 10) :: acc)

def natToString (n : Nat) : String := ⟨natDigitsAux (n + 1) n []⟩

/-- The seed: `hashlib.sha256((prompt + style + aspect).encode()).hexdigest()`
(line 130 of src/main.py). -/
def seedOf (prompt style aspect : String) : String :=
  sha256Hex (utf8Bytes (prompt ++ style ++ aspect))

/-- `c1 = f"#{seed[:6]}"` (line 131). -/
def color1 (prompt style aspect : String) : String :=
  "#" ++ strSlice (seedOf prompt style aspect) 0 6

/-- `c2 = f"#{seed[6:12]}"` (line 132). -/
def color2 (prompt style aspect : String) : String :=
  "#" ++ strSlice (seedOf prompt style aspect) 6 12

/-- `c3 = f"#{seed[12:18]}"` (line 133). -/
def color3 (prompt style aspect : String) : String :=
  "#" ++ strSlice (seedOf prompt style aspect) 12 18

/-- Aspect handling (lines 136-140): default 1024x1024, with the two
recognized families. -/
def dims (aspect : String) : Nat × Nat :=
  if aspect = "16:9" ∨ aspect = "16-9" then (1280, 720)
  else if aspect = "3:4" ∨ aspect = "3-4" then (960, 1280)
  else (1024, 1024)

/-- The prompt text rendered into the artifact: `prompt[:80]` (line 158). -/
def renderedPrompt (prompt : String) : String := pyTake 80 prompt

/-- The exact SVG markup composed by the f-string at lines 142-161,
byte-for-byte (including the indentation inside the triple-quoted string). -/
def svgMarkup (prompt style aspect : String) : String :=
  let w := (dims aspect).1
  let h := (dims aspect).2
  "<svg xmlns=\"http://www.w3.org/2000/svg\" width=\"" ++ natToString w ++
  "\" height=\"" ++ natToString h ++ "\">\n" ++
  "    <defs>\n" ++
  "      <radialGradient id=\"g\" cx=\"50%\" cy=\"50%\" r=\"70%\">\n" ++
  "        <stop offset=\"0%\" stop-color=\"" ++ color1 prompt style aspect ++ "\"/>\n" ++
  "        <stop offset=\"50%\" stop-color=\"" ++ color2 prompt style aspect ++ "\"/>\n" ++
  "        <stop offset=\"100%\" stop-color=\"" ++ color3 prompt style aspect ++ "\"/>\n" ++
  "      </radialGradient>\n" ++
  "      <filter id=\"f\" x=\"-20%\" y=\"-20%\" width=\"140%\" height=\"140%\">\n" ++
  "        <feTurbulence type=\"fractalNoise\" baseFrequency=\"0.012\" numOctaves=\"3\"/>\n" ++
  "        <feColorMatrix type=\"saturate\" values=\"1.2\"/>\n" ++
  "        <feBlend mode=\"overlay\"/>\n" ++
  "      </filter>\n" ++
  "    </defs>\n" ++
  "    <rect width=\"100%\" height=\"100%\" fill=\"url(#g)\"/>\n" ++
  "    <rect width=\"100%\" height=\"100%\" filter=\"url(#f)\" opacity=\"0.35\"/>\n" ++
  "    <g font-family=\"Inter,Arial\" font-size=\"28\" fill=\"white\" opacity=\"0.9\">\n" ++
  "      <text x=\"50%\" y=\"50%\" text-anchor=\"middle\">" ++ renderedPrompt prompt ++ "</text>\n" ++
  "      <text x=\"50%\" y=\"55%\" text-anchor=\"middle\" opacity=\"0.7\">style: " ++ style ++ "</text>\n" ++
  "    </g>\n" ++
  "  </svg>"

/-- The portion of the SVG markup preceding the rendered prompt text, used to
state where the prompt appears inside the artifact. -/
def svgMarkupPrefix (prompt style aspect : String) : String :=
  let w := (dims aspect).1
  let h := (dims aspect).2
  "<svg xmlns=\"http://www.w3.org/2000/svg\" width=\"" ++ natToString w ++
  "\" height=\"" ++ natToString h ++ "\">\n" ++
  "    <defs>\n" ++
  "      <radialGradient id=\"g\" cx=\"50%\" cy=\"50%\" r=\"70%\">\n" ++
  "        <stop offset=\"0%\" stop-color=\"" ++ color1 prompt style aspect ++ "\"/>\n" ++
  "        <stop offset=\"50%\" stop-color=\"" ++ color2 prompt style aspect ++ "\"/>\n" ++
  "        <stop offset=\"100%\" stop-color=\"" ++ color3 prompt style aspect ++ "\"/>\n" ++
  "      </radialGradient>\n" ++
  "      <filter id=\"f\" x=\"-20%\" y=\"-20%\" width=\"140%\" height=\"140%\">\n" ++
  "        <feTurbulence type=\"fractalNoise\" baseFrequency=\"0.012\" numOctaves=\"3\"/>\n" ++
  "        <feColorMatrix type=\"saturate\" values=\"1.2\"/>\n" ++
  "        <feBlend mode=\"overlay\"/>\n" ++
  "      </filter>\n" ++
  "    </defs>\n" ++
  "    <rect width=\"100%\" height=\"100%\" fill=\"url(#g)\"/>\n" ++
  "    <rect width=\"100%\" height=\"100%\" filter=\"url(#f)\" opacity=\"0.35\"/>\n" ++
  "    <g font-family=\"Inter,Arial\" font-size=\"28\" fill=\"white\" opacity=\"0.9\">\n" ++
  "      <text x=\"50%\" y=\"50%\" text-anchor=\"middle\">"

/-- Whether `pat` occurs at the head of `l`. -/
def bytesStartWith : List Nat → List Nat → Bool
  | [], _ => true
  | _ :: _, [] => false
  | p :: ps, x :: xs => p = x && bytesStartWith ps xs

/-- Whether `pat` occurs contiguously anywhere inside `l`. -/
def bytesContain (pat : List Nat) : List Nat → Bool
  | [] => pat.isEmpty
  | x :: xs => bytesStartWith pat (x :: xs) || bytesContain pat xs

/-- `_svg_placeholder` (lines 126-163): data URI wrapping the base64-encoded
UTF-8 serialization of the SVG markup. -/
def svgPlaceholder (prompt style aspect : String) : String :=
  "data:image/svg+xml;base64," ++ ⟨b64encode (utf8Bytes (svgMarkup prompt style aspect))⟩

/-- `ArtRequest`: `prompt` required, `style` and `aspect` optional (their
pydantic defaults are `"dreamy"` and `"1:1"`; `none` models an explicit JSON
`null`, which pydantic admits for `Optional` fields). -/
structure ArtRequest where
  prompt : String
  style : Option String
  aspect : Option String
deriving DecidableEq, Repr

structure ArtResponse where
  image : String
  prompt : String
  style : String
  provider : String
deriving DecidableEq, Repr

/-- Python `x or default` on an optional string: `None` and `""` are falsy. -/
def pyOr (x : Option String) (dflt : String) : String :=
  match x with
  | none => dflt
  | some s => if s = "" then dflt else s

/-- `generate_art` (lines 166-171). -/
def generate_art (req : ArtRequest) : ArtResponse :=
  let provider := "placeholder"
  let image_url := svgPlaceholder req.prompt (pyOr req.style "dreamy") (pyOr req.aspect "1:1")
  ⟨image_url, req.prompt, pyOr req.style "dreamy", provider⟩

/-! ### The catalog service (embedding of `list_products` and `create_product`)

Store documents are Python dicts with heterogeneous values, modelled as
association lists over an inductive value type.  Python `float` values are
modelled as exact rationals; every number the claims exercise is exactly
representable.  Exceptions are modelled as `Except String`, the string being
`str(e)`. -/

inductive PyVal where
  | vNone
  | vStr (s : String)
  | vInt (n : Int)
  | vFloat (q : Rat)
  | vDatetime (t : Nat)
deriving DecidableEq, Repr

abbrev Doc := List (String × PyVal)

/-- Python `d.get(k, dflt)` (and `d.get(k)` with `dflt = vNone`). -/
def pyGet (d : Doc) (k : String) (dflt : PyVal) : PyVal :=
  match d.find? (fun kv => kv.1 = k) with
  | some kv => kv.2
  | none => dflt

def intToString : Int → String
  | .ofNat n => natToString n
  | .negSucc n => "-" ++ natToString (n + 1)

/-- Python `str(v)`.  Exact for strings, `None` and ints — the only shapes an
`_id` takes in the claims; the float/datetime renderings are schematic
placeholders (total, unreached by every claim proved below). -/
def pyStrOf : PyVal → String
  | .vNone => "None"
  | .vStr s => s
  | .vInt n => intToString n
  | .vFloat q => intToString q.num ++ "/" ++ natToString q.den
  | .vDatetime t => "datetime(" ++ natToString t ++ ")"

def digitChars (cs : List Char) : Bool :=
  cs.all (fun c => 48 ≤ c.toNat && c.toNat ≤ 57)

def isSpaceChar (c : Char) : Bool :=
  c = ' ' || c = '\t' || c = '\n' || c = '\r' || c = '\x0b' || c = '\x0c'

/-- Strip leading and trailing ASCII whitespace (as Python `float` does). -/
def trimChars (cs : List Char) : List Char :=
  ((cs.dropWhile isSpaceChar).reverse.dropWhile isSpaceChar).reverse

/-- Split at every occurrence of a point character. -/
def splitOnDot : List Char → List (List Char)
  | [] => [[]]
  | '.' :: rest => [] :: splitOnDot rest
  | c :: rest =>
      match splitOnDot rest with
      | [] => [[c]]
      | p :: ps => (c :: p) :: ps

def digitsToNat (cs : List Char) : Nat :=
  cs.foldl (fun acc c => acc * 10 + (c.toNat - 48)) 0

/-- Python `float(s)` on a string, modelled for the decimal-literal subset:
optional sign, digits, optional single point (`Python` additionally accepts
exponents, `inf`/`nan` and underscores, none of which the claims exercise;
those fall to `none` here and are never the subject of a theorem below). -/
def parsePyFloat (s : String) : Option Rat :=
  let cs := trimChars s.data
  let body := match cs with
    | '+' :: rest => rest
    | '-' :: rest => rest
    | rest => rest
  let neg : Bool := match cs with
    | '-' :: _ => true
    | _ => false
  match splitOnDot body with
  | [ip] =>
      if ip ≠ [] ∧ digitChars ip then
        some (if neg then -(digitsToNat ip : Rat) else (digitsToNat ip : Rat))
      else none
  | [ip, fp] =>
      if (ip ≠ [] ∨ fp ≠ []) ∧ digitChars ip ∧ digitChars fp then
        let den : Nat := 10 ^ fp.length
        let q : Rat := mkRat (Int.ofNat (digitsToNat ip * den + digitsToNat fp)) den
        some (if neg then -q else q)
      else none
  | _ => none

/-- Python `float(v)` (line 103): ints and floats convert, numeric strings
parse, everything else raises. -/
def pyFloat : PyVal → Except String Rat
  | .vNone => .error "float() argument must be a string or a real number, not NoneType"
  | .vInt n => .ok (n : Rat)
  | .vFloat q => .ok q
  | .vStr s =>
      match parsePyFloat s with
      | some q => .ok q
      | none => .error ("could not convert string to float: " ++ s)
  | .vDatetime _ => .error "float() argument must be a string or a real number, not datetime.datetime"

/-- The `ProductOut` pydantic model (lines 20-30). -/
structure ProductOut where
  id : Option String
  title : String
  description : Option String
  price : Rat
  category : String
  image : Option String
  created_at : Option Nat
deriving DecidableEq, Repr

/-- pydantic validation of a `str` field: `None` or non-string values are
rejected (pydantic v2 does not coerce across these types). -/
def asStr : PyVal → Except String String
  | .vStr s => .ok s
  | _ => .error "validation error: string expected"

/-- pydantic validation of an `Optional[str]` field. -/
def asOptStr : PyVal → Except String (Option String)
  | .vNone => .ok none
  | .vStr s => .ok (some s)
  | _ => .error "validation error: string or None expected"

/-- pydantic validation of an `Optional[datetime]` field. -/
def asOptDatetime : PyVal → Except String (Option Nat)
  | .vNone => .ok none
  | .vDatetime t => .ok (some t)
  | _ => .error "validation error: datetime or None expected"

/-- The per-document mapping in the loop body of `list_products`
(lines 98-108): evaluate the constructor arguments — `float(...)` may raise —
then validate the `ProductOut` shape (pydantic raises on a type mismatch or a
negative price, since `price` carries `ge=0`). -/
def docToProduct (d : Doc) : Except String ProductOut :=
  match pyFloat (pyGet d "price" (.vInt 0)) with
  | .error e => .error e
  | .ok pr =>
  match asStr (pyGet d "title" .vNone) with
  | .error e => .error e
  | .ok title =>
  match asOptStr (pyGet d "description" .vNone) with
  | .error e => .error e
  | .ok descr =>
  match asStr (pyGet d "category" (.vStr "craft")) with
  | .error e => .error e
  | .ok cat =>
  match asOptStr (pyGet d "image" .vNone) with
  | .error e => .error e
  | .ok img =>
  match asOptDatetime (pyGet d "created_at" .vNone) with
  | .error e => .error e
  | .ok cr =>
  if pr < 0 then .error "validation error: price must be greater than or equal to 0"
  else .ok ⟨some (pyStrOf (pyGet d "_id" .vNone)), title, descr, pr, cat, img, cr⟩

/-- A store behavior for `get_documents("product", {})`: either the returned
documents or a raised exception (`ImportError` for a missing store module,
driver errors, etc. all surface as `.error`). -/
abbrev StoreList := Except String (List Doc)

/-- The `for` loop of lines 97-108: map every document, propagating any
exception raised by a single document's mapping. -/
def mapDocs : List Doc → Except String (List ProductOut)
  | [] => .ok []
  | d :: ds =>
      match docToProduct d with
      | .error e => .error e
      | .ok p =>
          match mapDocs ds with
          | .error e => .error e
          | .ok ps => .ok (p :: ps)

/-- The body of the `try` block of `list_products` (lines 93-109). -/
def list_products_try (store : StoreList) : Except String (List ProductOut) :=
  match store with
  | .error e => .error e
  | .ok docs => mapDocs docs

/-- `list_products` (lines 91-112): the whole endpoint, whose `except` clause
catches every exception and returns `[]`. -/
def list_products (store : StoreList) : Except String (List ProductOut) :=
  match list_products_try store with
  | .ok r => .ok r
  | .error _ => .ok []

/-- The `ProductIn` pydantic model (lines 20-25); the boundary layer has
already validated `price ≥ 0`. -/
structure ProductIn where
  title : String
  description : Option String
  price : Rat
  category : String
  image : Option String
deriving DecidableEq, Repr

/-- A FastAPI `HTTPException` response. -/
structure HTTPError where
  status_code : Nat
  detail : String
deriving DecidableEq, Repr

/-- A store behavior for `create_document("product", product_dict)`: the new
identifier, or a raised exception with message `str(e)`. -/
abbrev StoreCreate := ProductIn → Except String String

/-- `create_product` (lines 115-123): on success return the new id; on any
exception raise `HTTPException(500, "Database not available: " + str(e))`. -/
def create_product (store : StoreCreate) (product : ProductIn) : Except HTTPError String :=
  match store product with
  | .ok new_id => .ok new_id
  | .error e => .error ⟨500, "Database not available: " ++ e⟩

/-! ### Concrete sample inputs used by witnesses and counterexamples -/

/-- A well-formed stored document. -/
def goodDoc : Doc := [("_id", .vStr "p1"), ("title", .vStr "vase"), ("price", .vInt 30)]

/-- A document whose `price` is a non-numeric string: `float("abc")` raises. -/
def badPriceDoc : Doc := [("title", .vStr "mug"), ("price", .vStr "abc")]

/-- A document with no `category` field. -/
def noCategoryDoc : Doc := [("title", .vStr "bowl"), ("price", .vInt 5)]

/-- A document with no `price` field. -/
def noPriceDoc : Doc := [("title", .vStr "bare")]

/-- A document whose `price` is the numeric string `"12"`. -/
def stringPriceDoc : Doc := [("title", .vStr "kit"), ("price", .vStr "12")]

/-- A valid create-product input. -/
def sampleProduct : ProductIn := ⟨"vase", none, 30, "decor", none⟩

/-- A 300-character store error message. -/
def longErrMsg : String := ⟨List.replicate 300 'x'⟩

/-- A 100-character prompt. -/
def longPrompt : String := ⟨List.replicate 100 'x'⟩

/-- The end-to-end scenario request. -/
def e2eReq : ArtRequest := ⟨"a glowing forest", some "neon", some "16:9"⟩

/-! ### Ground-truth checks of the hash embedding -/

/-- NIST test vector: SHA-256 of the empty message. -/
theorem sha256Hex_empty_vector :
    sha256Hex [] =
      "e3b0c44298fc1c149afbf4c8996fb92427ae41e4649b934ca495991b7852b855" := by
  rfl

/-- NIST test vector: SHA-256 of ASCII "abc". -/
theorem sha256Hex_abc_vector :
    sha256Hex [97, 98, 99] =
      "ba7816bf8f01cfea414140de5dae2223b00361a396177a9cb410ff61f20015ad" := by
  rfl

/-! ### Helper lemmas -/

/-- Unfolding of `docToProduct` on a successful document: every field step
succeeded and the product is the constructed record. -/
theorem docToProduct_ok (d : Doc) (p : ProductOut) (h : docToProduct d = .ok p) :
    ∃ pr title descr cat img cr,
      pyFloat (pyGet d "price" (.vInt 0)) = .ok pr ∧
      asStr (pyGet d "title" .vNone) = .ok title ∧
      asOptStr (pyGet d "description" .vNone) = .ok descr ∧
      asStr (pyGet d "category" (.vStr "craft")) = .ok cat ∧
      asOptStr (pyGet d "image" .vNone) = .ok img ∧
      asOptDatetime (pyGet d "created_at" .vNone) = .ok cr ∧
      ¬ pr < 0 ∧
      p = ⟨some (pyStrOf (pyGet d "_id" .vNone)), title, descr, pr, cat, img, cr⟩ := by
  unfold docToProduct at h
  split at h
  · exact absurd h (by simp)
  rename_i pr hpr
  split at h
  · exact absurd h (by simp)
  rename_i title htitle
  split at h
  · exact absurd h (by simp)
  rename_i descr hdescr
  split at h
  · exact absurd h (by simp)
  rename_i cat hcat
  split at h
  · exact absurd h (by simp)
  rename_i img himg
  split at h
  · exact absurd h (by simp)
  rename_i cr hcr
  split at h
  · exact absurd h (by simp)
  rename_i hneg
  refine ⟨pr, title, descr, cat, img, cr, hpr, htitle, hdescr, hcat, himg, hcr, hneg, ?_⟩
  exact (Except.ok.inj h).symm

/-- If any document of the list fails to map, the whole mapping fails. -/
theorem mapDocs_error {d : Doc} {e : String} :
    ∀ {docs : List Doc}, d ∈ docs → docToProduct d = .error e →
      ∃ eb, mapDocs docs = .error eb := by
  intro docs
  induction docs with
  | nil => intro h; exact absurd h (List.not_mem_nil d)
  | cons a as ih =>
      intro hmem he
      rcases List.mem_cons.mp hmem with rfl | hmem
      · exact ⟨e, by simp [mapDocs, he]⟩
      · rcases hq : docToProduct a with ea | p
        · exact ⟨ea, by simp [mapDocs, hq]⟩
        · obtain ⟨eb, hm⟩ := ih hmem he
          exact ⟨eb, by simp [mapDocs, hq, hm]⟩

/-! ### Claim theorems: catalog service -/

/-- Claim C2: for every behavior of the store — a raised exception (missing
module, driver failure) or any returned document list, well-formed or not —
`list_products` returns an ordered sequence and never propagates an error;
when the store raises, it returns the empty sequence. -/
theorem list_products_never_fails :
    ∀ store : StoreList,
      (∃ l : List ProductOut, list_products store = .ok l) ∧
      (∀ e : String, store = .error e → list_products store = .ok []) := by
  intro store
  constructor
  · unfold list_products
    rcases h : list_products_try store with e | r
    · exact ⟨[], rfl⟩
    · exact ⟨r, rfl⟩
  · intro e he
    subst he
    rfl

/-- Witness for C2: a store that raises on every query yields the empty list,
and some well-typed result exists for an arbitrary store value. -/
theorem list_products_never_fails_witness :
    ((Except.error "connection refused" : StoreList) = .error "connection refused") ∧
    list_products (.error "connection refused") = .ok [] :=
  ⟨rfl, (list_products_never_fails (.error "connection refused")).2 "connection refused" rfl⟩

/-- Claim C3: for every valid product input, a raising store makes
`create_product` signal a 500 server-error (`StoreUnavailable`-class) failure
rather than returning an identifier, and a succeeding store makes it return
the newly assigned identifier as text. -/
theorem create_product_propagates :
    ∀ (store : StoreCreate) (p : ProductIn), 0 ≤ p.price →
      (∀ e : String, store p = .error e →
        create_product store p = .error ⟨500, "Database not available: " ++ e⟩) ∧
      (∀ new_id : String, store p = .ok new_id →
        create_product store p = .ok new_id) := by
  intro store p _
  constructor
  · intro e he
    unfold create_product
    rw [he]
  · intro new_id hid
    unfold create_product
    rw [hid]

/-- Witness for C3: a concrete failing store yields the 500 response, and a
concrete succeeding store yields the new id. -/
theorem create_product_propagates_witness :
    (0 : Rat) ≤ sampleProduct.price ∧
    create_product (fun _ => .error "server down") sampleProduct =
      .error ⟨500, "Database not available: server down"⟩ ∧
    create_product (fun _ => .ok "6614a0") sampleProduct = .ok "6614a0" :=
  ⟨by norm_num [sampleProduct],
   (create_product_propagates (fun _ => .error "server down") sampleProduct
      (by norm_num [sampleProduct])).1 "server down" rfl,
   (create_product_propagates (fun _ => .ok "6614a0") sampleProduct
      (by norm_num [sampleProduct])).2 "6614a0" rfl⟩

/-- Claim C10: the per-document mapping of `list_products` is not
individually guarded — if mapping any single document raises, the whole
operation returns the empty sequence, discarding every other document. -/
theorem list_products_all_or_nothing :
    ∀ (docs : List Doc) (d : Doc) (e : String),
      d ∈ docs → docToProduct d = .error e →
      list_products (.ok docs) = .ok [] := by
  intro docs d e hmem he
  obtain ⟨eb, hm⟩ := mapDocs_error hmem he
  unfold list_products list_products_try
  simp [hm]

/-- Witness for C10: one malformed document (`price` `"abc"`) empties the
whole result even though the other document maps successfully. -/
theorem list_products_all_or_nothing_witness :
    badPriceDoc ∈ [goodDoc, badPriceDoc] ∧
    docToProduct badPriceDoc = .error "could not convert string to float: abc" ∧
    docToProduct goodDoc = .ok ⟨some "p1", "vase", none, 30, "craft", none, none⟩ ∧
    list_products (.ok [goodDoc, badPriceDoc]) = .ok [] :=
  ⟨by simp, rfl, rfl,
   list_products_all_or_nothing [goodDoc, badPriceDoc] badPriceDoc
     "could not convert string to float: abc" (by simp) rfl⟩

/-- Counterexample to C6 as stated: a document whose `price` is the
non-numeric string `"abc"` does not surface as a product with price `0`; the
mapping raises and `list_products` returns the empty sequence instead. -/
theorem field_defaulting_counterexample :
    docToProduct badPriceDoc = .error "could not convert string to float: abc" ∧
    list_products (.ok [badPriceDoc]) = .ok [] :=
  ⟨rfl, rfl⟩

/-- Claim C6 (amended): for every surfaced document, a missing `category`
defaults to `"craft"`; a missing `price` surfaces as `0`; the numeric string
`"12"` surfaces as `12`; but a non-numeric `price` (e.g. `"abc"`) makes the
per-document mapping raise, so no product is surfaced at all. -/
theorem field_defaulting_amended :
    ∀ (d : Doc) (p : ProductOut),
      (docToProduct d = .ok p →
        d.find? (fun kv => kv.1 = "category") = none → p.category = "craft") ∧
      (docToProduct d = .ok p →
        d.find? (fun kv => kv.1 = "price") = none → p.price = 0) ∧
      (docToProduct d = .ok p →
        pyGet d "price" (.vInt 0) = .vStr "12" → p.price = 12) ∧
      (pyGet d "price" (.vInt 0) = .vStr "abc" →
        docToProduct d = .error "could not convert string to float: abc") := by
  intro d p
  refine ⟨?_, ?_, ?_, ?_⟩
  · intro h hfind
    obtain ⟨pr, title, descr, cat, img, cr, _, _, _, hcat, _, _, _, hp⟩ := docToProduct_ok d p h
    have hcraft : pyGet d "category" (.vStr "craft") = .vStr "craft" := by
      unfold pyGet
      rw [hfind]
    rw [hcraft] at hcat
    have : cat = "craft" := by
      have := Except.ok.inj hcat
      simpa [asStr] using this.symm
    rw [hp, this]
  · intro h hfind
    obtain ⟨pr, title, descr, cat, img, cr, hpr, _, _, _, _, _, _, hp⟩ := docToProduct_ok d p h
    have hzero : pyGet d "price" (.vInt 0) = .vInt 0 := by
      unfold pyGet
      rw [hfind]
    rw [hzero] at hpr
    have : pr = 0 := by
      have := Except.ok.inj hpr
      simpa [pyFloat] using this.symm
    rw [hp, this]
  · intro h hgot
    obtain ⟨pr, title, descr, cat, img, cr, hpr, _, _, _, _, _, _, hp⟩ := docToProduct_ok d p h
    rw [hgot] at hpr
    have h12 : pyFloat (.vStr "12") = .ok (12 : Rat) := rfl
    rw [h12] at hpr
    have : pr = 12 := (Except.ok.inj hpr).symm
    rw [hp, this]
  · intro hgot
    unfold docToProduct
    rw [hgot]
    rfl

/-- Witness for C6 (amended): each defaulting rule at a concrete document. -/
theorem field_defaulting_amended_witness :
    (docToProduct noCategoryDoc = .ok ⟨some "None", "bowl", none, 5, "craft", none, none⟩ ∧
      noCategoryDoc.find? (fun kv => kv.1 = "category") = none ∧
      (⟨some "None", "bowl", none, 5, "craft", none, none⟩ : ProductOut).category = "craft") ∧
    (docToProduct noPriceDoc = .ok ⟨some "None", "bare", none, 0, "craft", none, none⟩ ∧
      noPriceDoc.find? (fun kv => kv.1 = "price") = none ∧
      (⟨some "None", "bare", none, 0, "craft", none, none⟩ : ProductOut).price = 0) ∧
    (docToProduct stringPriceDoc = .ok ⟨some "None", "kit", none, 12, "craft", none, none⟩ ∧
      pyGet stringPriceDoc "price" (.vInt 0) = .vStr "12" ∧
      (⟨some "None", "kit", none, 12, "craft", none, none⟩ : ProductOut).price = 12) ∧
    (pyGet badPriceDoc "price" (.vInt 0) = .vStr "abc" ∧
      docToProduct badPriceDoc = .error "could not convert string to float: abc") :=
  ⟨⟨rfl, rfl, (field_defaulting_amended noCategoryDoc
      ⟨some "None", "bowl", none, 5, "craft", none, none⟩).1 rfl rfl⟩,
   ⟨rfl, rfl, (field_defaulting_amended noPriceDoc
      ⟨some "None", "bare", none, 0, "craft", none, none⟩).2.1 rfl rfl⟩,
   ⟨rfl, rfl, (field_defaulting_amended stringPriceDoc
      ⟨some "None", "kit", none, 12, "craft", none, none⟩).2.2.1 rfl rfl⟩,
   ⟨rfl, (field_defaulting_amended badPriceDoc
      ⟨some "None", "kit", none, 12, "craft", none, none⟩).2.2.2 rfl⟩⟩

/-- Counterexample to C7 as stated: a 300-character store error message
surfaces in full — the diagnostic string has 324 characters, far above any
cap of about 80. -/
theorem create_truncation_counterexample :
    create_product (fun _ => .error longErrMsg) sampleProduct =
      .error ⟨500, "Database not available: " ++ longErrMsg⟩ ∧
    ("Database not available: " ++ longErrMsg).length = 324 :=
  ⟨rfl, by decide⟩

/-- Claim C7 (amended): the diagnostic in the 500 response is the full
`"Database not available: " + str(e)`, with no truncation — its length is
always 24 plus the length of the store's error message.  (An 80-character
truncation exists only in the separate `/test` diagnostics endpoint.) -/
theorem create_error_detail_amended :
    ∀ (store : StoreCreate) (p : ProductIn) (e : String),
      store p = .error e →
      create_product store p = .error ⟨500, "Database not available: " ++ e⟩ ∧
      ("Database not available: " ++ e).length = 24 + e.length := by
  intro store p e he
  constructor
  · unfold create_product
    rw [he]
  · simp only [String.length_append]
    rfl

/-- Witness for C7 (amended): a concrete failing store. -/
theorem create_error_detail_amended_witness :
    create_product (fun _ => .error "boom") sampleProduct =
      .error ⟨500, "Database not available: boom"⟩ ∧
    ("Database not available: boom" : String).length = 24 + 4 := by
  have h := create_error_detail_amended (fun _ => .error "boom") sampleProduct "boom" rfl
  exact ⟨h.1, h.2⟩

theorem b64Val_b64Char : ∀ v, v < 64 → b64Val (b64Char v) = some v := by decide

theorem b64Char_ne_pad : ∀ v, v < 64 → b64Char v ≠ '=' := by decide

theorem charToNat_lt (c : Char) : c.toNat < 1114112 := by
  have h := c.valid
  unfold Char.toNat
  rcases h with h | h <;> omega

/-- Every UTF-8 byte of a single character is below 256. -/
theorem utf8Char_lt (c : Char) : ∀ b ∈ utf8Char c, b < 256 := by
  have hc := charToNat_lt c
  intro b hb
  unfold utf8Char at hb
  dsimp only at hb
  split_ifs at hb with h1 h2 h3 <;>
    simp only [List.mem_cons, List.not_mem_nil, or_false] at hb
  · subst hb; omega
  · rcases hb with rfl | rfl <;> omega
  · rcases hb with rfl | rfl | rfl <;> omega
  · rcases hb with rfl | rfl | rfl | rfl <;> omega

/-- Every byte of a UTF-8 encoded string is below 256. -/
theorem utf8Bytes_lt (s : String) : ∀ b ∈ utf8Bytes s, b < 256 := by
  intro b hb
  unfold utf8Bytes at hb
  rw [List.mem_flatten] at hb
  obtain ⟨l, hl, hbl⟩ := hb
  rw [List.mem_map] at hl
  obtain ⟨c, _, rfl⟩ := hl
  exact utf8Char_lt c b hbl

/-- `b64decode` inverts `b64encode` on every byte list. -/
theorem b64_roundtrip (bs : List Nat) (hb : ∀ b ∈ bs, b < 256) :
    b64decode (b64encode bs) = some bs := by
  revert hb
  induction bs using b64encode.induct with
  | case1 b1 b2 b3 rest ih =>
      intro hb
      have hb1 : b1 < 256 := hb b1 (by simp)
      have hb2 : b2 < 256 := hb b2 (by simp)
      have hb3 : b3 < 256 := hb b3 (by simp)
      have hrest : ∀ b ∈ rest, b < 256 := fun b h => hb b (by simp [h])
      simp only [b64encode]
      rw [b64decode]
      rw [if_neg (b64Char_ne_pad _ (Nat.mod_lt _ (by norm_num))),
        if_neg (b64Char_ne_pad _ (Nat.mod_lt _ (by norm_num)))]
      rw [b64Val_b64Char _ (Nat.mod_lt _ (by norm_num)),
        b64Val_b64Char _ (Nat.mod_lt _ (by norm_num)),
        b64Val_b64Char _ (Nat.mod_lt _ (by norm_num)),
        b64Val_b64Char _ (Nat.mod_lt _ (by norm_num)),
        ih hrest]
      simp only [Option.some.injEq, List.cons.injEq]
      refine ⟨?_, ?_, ?_, trivial⟩ <;> omega
  | case2 b1 b2 =>
      intro hb
      have hb1 : b1 < 256 := hb b1 (by simp)
      have hb2 : b2 < 256 := hb b2 (by simp)
      simp only [b64encode]
      rw [b64decode]
      rw [if_neg (b64Char_ne_pad _ (Nat.mod_lt _ (by norm_num)))]
      rw [if_pos rfl, if_pos rfl]
      rw [b64Val_b64Char _ (Nat.mod_lt _ (by norm_num)),
        b64Val_b64Char _ (Nat.mod_lt _ (by norm_num)),
        b64Val_b64Char _ (Nat.mod_lt _ (by norm_num))]
      dsimp only
      rw [if_pos (by omega)]
      simp only [Option.some.injEq, List.cons.injEq]
      refine ⟨?_, ?_, trivial⟩ <;> omega
  | case3 b1 =>
      intro hb
      have hb1 : b1 < 256 := hb b1 (by simp)
      simp only [b64encode]
      rw [b64decode]
      rw [if_pos rfl, if_pos ⟨rfl, rfl⟩]
      rw [b64Val_b64Char _ (Nat.mod_lt _ (by norm_num)),
        b64Val_b64Char _ (Nat.mod_lt _ (by norm_num))]
      dsimp only
      rw [if_pos (by omega)]
      simp only [Option.some.injEq, List.cons.injEq]
      refine ⟨?_, trivial⟩
      omega
  | case4 => intro hb; rfl

/-! ### Claim theorems: art generator -/

/-- Claim C1: the generator is deterministic — two invocations on the same
`(prompt, style, aspect)` triple yield byte-identical artifacts and echoed
fields (the embedding is a pure function of its input). -/
theorem generator_deterministic :
    ∀ p s a : String,
      svgPlaceholder p s a = svgPlaceholder p s a ∧
      generate_art ⟨p, some s, some a⟩ = generate_art ⟨p, some s, some a⟩ :=
  fun _ _ _ => ⟨rfl, rfl⟩

/-- Claim C4: the seed is the hex digest of SHA-256 of
`prompt ++ style ++ aspect` (that order, no separator), and the three gradient
stop colors are `#` prepended to hex digits 0-5, 6-11 and 12-17 of the
digest. -/
theorem seed_and_colors :
    ∀ p s a : String,
      seedOf p s a = sha256Hex (utf8Bytes (p ++ s ++ a)) ∧
      color1 p s a = ⟨'#' :: ((sha256Hex (utf8Bytes (p ++ s ++ a))).data.take 6)⟩ ∧
      color2 p s a = ⟨'#' :: (((sha256Hex (utf8Bytes (p ++ s ++ a))).data.drop 6).take 6)⟩ ∧
      color3 p s a = ⟨'#' :: (((sha256Hex (utf8Bytes (p ++ s ++ a))).data.drop 12).take 6)⟩ :=
  fun _ _ _ => ⟨rfl, rfl, rfl, rfl⟩

/-- Claim C5: aspect `"16:9"`/`"16-9"` gives a 1280x720 canvas,
`"3:4"`/`"3-4"` gives 960x1280, and every other aspect string (including
`"1:1"`) gives 1024x1024. -/
theorem aspect_canvas_mapping :
    (dims "16:9" = (1280, 720) ∧ dims "16-9" = (1280, 720) ∧
     dims "3:4" = (960, 1280) ∧ dims "3-4" = (960, 1280) ∧
     dims "1:1" = (1024, 1024)) ∧
    ∀ a : String, a ≠ "16:9" → a ≠ "16-9" → a ≠ "3:4" → a ≠ "3-4" →
      dims a = (1024, 1024) := by
  refine ⟨⟨rfl, rfl, rfl, rfl, rfl⟩, ?_⟩
  intro a h1 h2 h3 h4
  unfold dims
  rw [if_neg (by rintro (h | h); exacts [h1 h, h2 h]),
    if_neg (by rintro (h | h); exacts [h3 h, h4 h])]

/-- Witness for C5: an unrecognized aspect string falls to 1024x1024. -/
theorem aspect_canvas_mapping_witness :
    ("galaxy" : String) ≠ "16:9" ∧ dims "galaxy" = (1024, 1024) :=
  ⟨by decide,
   aspect_canvas_mapping.2 "galaxy" (by decide) (by decide) (by decide) (by decide)⟩

/-- Claim C8: the prompt text rendered into the artifact is `prompt[:80]` —
exactly the first 80 characters when the prompt is longer than 80 characters,
and the whole prompt otherwise; it appears verbatim in the markup between the
text-anchor tag and the closing tag. -/
theorem prompt_truncation :
    ∀ p s a : String,
      (svgMarkup p s a = svgMarkupPrefix p s a ++ renderedPrompt p ++ "</text>\n" ++
        "      <text x=\"50%\" y=\"55%\" text-anchor=\"middle\" opacity=\"0.7\">style: " ++
        s ++ "</text>\n" ++ "    </g>\n" ++ "  </svg>") ∧
      (80 < p.length → renderedPrompt p = ⟨p.data.take 80⟩ ∧ (renderedPrompt p).length = 80) ∧
      (p.length ≤ 80 → renderedPrompt p = p) := by
  intro p s a
  refine ⟨rfl, ?_, ?_⟩
  · intro hlen
    refine ⟨rfl, ?_⟩
    cases p with
    | mk l =>
      show (List.take 80 l).length = 80
      rw [List.length_take]
      simp only [String.length] at hlen
      omega
  · intro hlen
    cases p with
    | mk l =>
      show (⟨l.take 80⟩ : String) = ⟨l⟩
      have h : l.take 80 = l := List.take_of_length_le (by simpa [String.length] using hlen)
      rw [h]

/-- Witness for C8: a 100-character prompt renders as its first 80
characters; a short prompt renders in full. -/
theorem prompt_truncation_witness :
    80 < longPrompt.length ∧
    renderedPrompt longPrompt = ⟨List.replicate 80 'x'⟩ ∧
    ("a glowing forest" : String).length ≤ 80 ∧
    renderedPrompt "a glowing forest" = "a glowing forest" := by
  refine ⟨by decide, ?_, by decide, ?_⟩
  · have h := ((prompt_truncation longPrompt "neon" "1:1").2.1 (by decide)).1
    rw [h]
    rfl
  · exact (prompt_truncation "a glowing forest" "neon" "1:1").2.2 (by decide)

/-- Claim C9: the image output is `"data:image/svg+xml;base64,"` followed by
the base64 encoding of the UTF-8 bytes of the SVG markup, and the payload
decodes back to exactly those bytes.  In particular the end-to-end scenario —
prompt `"a glowing forest"`, style `"neon"`, aspect `"16:9"` — has provider
`"placeholder"`, style `"neon"`, and markup containing
`width="1280" height="720"` and the literal prompt text. -/
theorem generator_output_encoding :
    ∀ p s a : String,
      svgPlaceholder p s a =
        "data:image/svg+xml;base64," ++ ⟨b64encode (utf8Bytes (svgMarkup p s a))⟩ ∧
      b64decode (b64encode (utf8Bytes (svgMarkup p s a))) =
        some (utf8Bytes (svgMarkup p s a)) ∧
      (generate_art e2eReq).provider = "placeholder" ∧
      (generate_art e2eReq).style = "neon" ∧
      (generate_art e2eReq).prompt = "a glowing forest" ∧
      (generate_art e2eReq).image =
        "data:image/svg+xml;base64," ++
          ⟨b64encode (utf8Bytes (svgMarkup "a glowing forest" "neon" "16:9"))⟩ ∧
      bytesContain (utf8Bytes "width=\"1280\" height=\"720\"")
        (utf8Bytes (svgMarkup "a glowing forest" "neon" "16:9")) = true ∧
      bytesContain (utf8Bytes "a glowing forest")
        (utf8Bytes (svgMarkup "a glowing forest" "neon" "16:9")) = true := by
  intro p s a
  exact ⟨rfl, b64_roundtrip _ (utf8Bytes_lt _), rfl, rfl, rfl, rfl, by rfl, by rfl⟩

end DreamCraft
